import Mathlib

/-!
Verification of the enqueuer service (src/app.py): a shallow embedding of
the configuration cache (ConfigManager) and the enqueue request handler,
with theorems checking the natural-language specification against it.

Modelling conventions:
* Timestamps are integers (seconds); `datetime.min` becomes a large
  negative constant; the 5-minute TTL is 300 seconds.
* The remote fetch-and-parse (GCS download + json.loads) and the local
  snapshot read (open + json.load) are each modelled as an
  `Except String Config` input: `.ok table` when the whole try-block body
  succeeds, `.error e` when any step of it raises.
* A Python dict is an association list with `List.lookup`.
* `uuid.uuid4()` is modelled as an externally supplied fresh string
  (`genKey`), distinct across invocations.
* The Cloud Tasks client is a function from the built task descriptor to
  `Except String String` (backend error detail, or the assigned task name).
-/

namespace Enqueuer

/-- One value of the routing table dict: `{queue, url, aud, deadline_s?}`.
The `deadline_s` key is optional in the source (`cfg.get("deadline_s", 900)`). -/
structure ServiceCfg where
  queue : String
  url : String
  aud : String
  deadline_s : Option Int
deriving Repr, DecidableEq

/-- The routing table: the JSON object mapping service names to entries. -/
abbrev Config := List (String × ServiceCfg)

/-- `datetime.min` (0001-01-01) as seconds relative to the Unix epoch. -/
def datetimeMin : Int := -62135596800

/-- The mutable state of `ConfigManager`: `_config` and `_last_loaded`. -/
structure CacheState where
  config : Config
  lastLoaded : Int
deriving Repr, DecidableEq

/-- `_cache_ttl = timedelta(minutes=5)`, in seconds. -/
def cacheTTL : Int := 300

/-- `ConfigManager.__init__`: empty table, `_last_loaded = datetime.min`. -/
def initialCacheState : CacheState := { config := [], lastLoaded := datetimeMin }

/-- `ConfigManager._load_local_fallback`: read `services.json`; on success
replace the table and set `_last_loaded = now`; on any exception keep the
state unchanged. -/
def load_local_fallback (localFile : Except String Config) (now : Int)
    (s : CacheState) : CacheState :=
  match localFile with
  | .ok tbl => { config := tbl, lastLoaded := now }
  | .error _ => s

/-- `ConfigManager._load_from_gcs`: on fetch-and-parse success replace the
table and set `_last_loaded = now`; on any exception, keep the table if it
is non-empty (`if not self._config`), otherwise try the local fallback. -/
def load_from_gcs (remote localFile : Except String Config) (now : Int)
    (s : CacheState) : CacheState :=
  match remote with
  | .ok tbl => { config := tbl, lastLoaded := now }
  | .error _ =>
      if s.config.isEmpty then load_local_fallback localFile now s else s

/-- `ConfigManager.get_services`: refresh when `now - _last_loaded > _cache_ttl`,
then return the held table. The third component counts how many refresh
attempts (`_load_from_gcs` calls) the lookup performed. -/
def get_services (remote localFile : Except String Config) (now : Int)
    (s : CacheState) : Config × CacheState × Nat :=
  if now - s.lastLoaded > cacheTTL then
    let s1 := load_from_gcs remote localFile now s
    (s1.config, s1, 1)
  else
    (s.config, s, 0)

/-- The body of `POST /enqueue` and the pydantic model `EnqueueRequest`.
`payload` is kept opaque (its JSON encoding is passed through unchanged). -/
structure EnqueueRequest where
  service : String
  payload : String
  idempotency_key : Option String
  delay_s : Option Int
  deadline_s : Option Int
deriving Repr, DecidableEq

/-- The pydantic field constraints: `delay_s ≥ 0`, `deadline_s ∈ [1, 3600]`. -/
def validFields (req : EnqueueRequest) : Bool :=
  (match req.delay_s with
   | some d => decide (0 ≤ d)
   | none => true) &&
  (match req.deadline_s with
   | some d => decide (1 ≤ d && d ≤ 3600)
   | none => true)

/-- `EnqueueRequest.service_must_exist`: raise `ValueError` when the service
name is not a key of the current table. -/
def service_must_exist (table : Config) (v : String) : Except String String :=
  if (table.lookup v).isSome then .ok v
  else .error ("Servicio " ++ v ++ " no encontrado. Disponibles: "
    ++ toString (table.map Prod.fst))

/-- Pydantic validation of an inbound request body: the custom `service`
validator (which reads the cache, possibly refreshing it) and the field
constraints. A failure becomes FastAPI's HTTP 422 response. -/
def validateRequest (remote localFile : Except String Config) (now : Int)
    (s : CacheState) (req : EnqueueRequest) : Except String Unit × CacheState :=
  let r := get_services remote localFile now s
  match service_must_exist r.1 req.service with
  | .error e => (.error e, r.2.1)
  | .ok _ =>
      if validFields req then (.ok (), r.2.1)
      else (.error "invalid field value", r.2.1)

/-- The `http_request` part of the task descriptor built by `enqueue`. -/
structure HttpRequestModel where
  http_method : String
  url : String
  headers : List (String × String)
  body : String
  oidc_email : String
  oidc_audience : String
deriving Repr, DecidableEq

/-- The task descriptor submitted to `client.create_task`. -/
structure TaskModel where
  http_request : HttpRequestModel
  schedule_time : Option Int
  dispatch_deadline : String
deriving Repr, DecidableEq

/-- `idem = req.idempotency_key or str(uuid.uuid4())`: Python `or` falls
through to the generated key when the supplied key is `None` or the empty
string (both falsy). -/
def effectiveIdemKey (req : EnqueueRequest) (genKey : String) : String :=
  match req.idempotency_key with
  | some k => if k = "" then genKey else k
  | none => genKey

/-- `deadline_s = req.deadline_s or cfg.get("deadline_s", 900)`: Python `or`
falls through when the supplied value is `None` or `0` (falsy). -/
def effectiveDeadline (cfg : ServiceCfg) (req : EnqueueRequest) : Int :=
  match req.deadline_s with
  | some d => if d = 0 then cfg.deadline_s.getD 900 else d
  | none => cfg.deadline_s.getD 900

/-- The task descriptor `enqueue` builds: POST to `cfg["url"]`, JSON
content type, `X-Idempotency-Key` header, OIDC token for `CALLER_SA`
with audience `cfg["aud"]`, optional schedule time when `delay_s` is
truthy and positive, and `dispatch_deadline = f-string of deadline + "s"`. -/
def buildTask (callerSA : String) (cfg : ServiceCfg) (req : EnqueueRequest)
    (genKey : String) (now : Int) : TaskModel :=
  { http_request :=
      { http_method := "POST"
        url := cfg.url
        headers := [("Content-Type", "application/json"),
                    ("X-Idempotency-Key", effectiveIdemKey req genKey)]
        body := req.payload
        oidc_email := callerSA
        oidc_audience := cfg.aud }
    schedule_time :=
      match req.delay_s with
      | some d => if 0 < d then some (now + d) else none
      | none => none
    dispatch_deadline := toString (effectiveDeadline cfg req) ++ "s" }

/-- The HTTP outcome of an `/enqueue` call: a 200 JSON body, or an error
status with a detail string (FastAPI `HTTPException` / validation error). -/
inductive EnqueueOutcome where
  | success (body : List (String × String))
  | httpError (status : Nat) (detail : String)
deriving Repr, DecidableEq

/-- The body of the `enqueue` handler after validation: resolve the entry,
build the task, call `create_task` once; on success return the response
dict, on any exception raise `HTTPException(500, "Error en Cloud Tasks")`.
The second component counts `create_task` calls. -/
def enqueueBody (callerSA : String) (table : Config) (lastLoaded : Int)
    (req : EnqueueRequest) (genKey : String) (now : Int)
    (backend : TaskModel → Except String String) : EnqueueOutcome × Nat :=
  match table.lookup req.service with
  | none => (.httpError 500 "Internal Server Error", 0)
  | some cfg =>
      let task := buildTask callerSA cfg req genKey now
      match backend task with
      | .ok name =>
          (.success [("ok", "true"), ("task", name), ("service", req.service),
                     ("from_config_ver", toString lastLoaded)], 1)
      | .error _ => (.httpError 500 "Error en Cloud Tasks", 1)

/-- `POST /enqueue` end to end: pydantic validation (a failure is an HTTP
422 and the handler never runs), then the handler body, which reads the
cache again. Returns the outcome, the final cache state, and the number of
`create_task` calls made. -/
def handleEnqueue (callerSA : String) (remote localFile : Except String Config)
    (now : Int) (s : CacheState) (req : EnqueueRequest) (genKey : String)
    (backend : TaskModel → Except String String) :
    EnqueueOutcome × CacheState × Nat :=
  match validateRequest remote localFile now s req with
  | (.error e, s1) => (.httpError 422 e, s1, 0)
  | (.ok _, s1) =>
      let r := get_services remote localFile now s1
      let out := enqueueBody callerSA r.1 r.2.1.lastLoaded req genKey now backend
      (out.1, r.2.1, out.2)

end Enqueuer

namespace Enqueuer

/-! ## Concrete fixtures used by witnesses and counterexamples -/

/-- A routing entry for the service `brain`, with an explicit deadline. -/
def brainCfg : ServiceCfg :=
  { queue := "q-brain", url := "https://brain.example/run",
    aud := "aud-brain", deadline_s := some 600 }

/-- A warm cache: the table holds `brain`, loaded at time 0. -/
def warmState : CacheState := { config := [("brain", brainCfg)], lastLoaded := 0 }

/-- A plain request for `brain` with no optional fields. -/
def brainReq : EnqueueRequest :=
  { service := "brain", payload := "payload-bytes", idempotency_key := none,
    delay_s := none, deadline_s := none }

/-! ## Cache claims -/

/-- C1: a refresh whose remote fetch or parse fails, on a non-empty table,
leaves the whole cache state unchanged — the table is untouched (every
previously resolvable name still resolves to the same entry) and
`last_loaded_at` is not updated, so a later lookup is still past the TTL
exactly when it was before. -/
theorem refresh_failure_preserves_nonempty_table
    (e : String) (localFile : Except String Config) (now : Int) (s : CacheState)
    (h : s.config ≠ []) :
    load_from_gcs (.error e) localFile now s = s ∧
    (load_from_gcs (.error e) localFile now s).lastLoaded = s.lastLoaded ∧
    (∀ name entry, s.config.lookup name = some entry →
      (load_from_gcs (.error e) localFile now s).config.lookup name = some entry) := by
  have hne : s.config.isEmpty = false := by
    cases hc : s.config with
    | nil => exact absurd hc h
    | cons a t => simp
  simp [load_from_gcs, hne]

theorem refresh_failure_preserves_nonempty_table_witness :
    load_from_gcs (.error "boom") (.error "no file") 1000 warmState = warmState ∧
    (load_from_gcs (.error "boom") (.error "no file") 1000 warmState).lastLoaded
      = warmState.lastLoaded ∧
    (∀ name entry, warmState.config.lookup name = some entry →
      (load_from_gcs (.error "boom") (.error "no file") 1000 warmState).config.lookup name
        = some entry) :=
  refresh_failure_preserves_nonempty_table "boom" (.error "no file") 1000 warmState
    (by decide)

/-- C2: a refresh whose remote fetch fails on an empty table attempts the
local fallback; if the fallback succeeds its table is adopted and
`last_loaded_at` becomes `now`; if the fallback also fails the table stays
empty. -/
theorem refresh_failure_empty_table_fallback
    (e : String) (localFile : Except String Config) (now : Int) (s : CacheState)
    (h : s.config = []) :
    (∀ tbl, localFile = .ok tbl →
      load_from_gcs (.error e) localFile now s = { config := tbl, lastLoaded := now }) ∧
    (∀ e2, localFile = .error e2 →
      (load_from_gcs (.error e) localFile now s).config = []) := by
  constructor
  · intro tbl hl
    simp [load_from_gcs, h, hl, load_local_fallback]
  · intro e2 hl
    simp [load_from_gcs, h, hl, load_local_fallback]

theorem refresh_failure_empty_table_fallback_witness :
    (∀ tbl, (Except.ok [("brain", brainCfg)] : Except String Config) = .ok tbl →
      load_from_gcs (.error "boom") (.ok [("brain", brainCfg)]) 500 initialCacheState
        = { config := tbl, lastLoaded := 500 }) ∧
    (∀ e2, (Except.ok [("brain", brainCfg)] : Except String Config) = .error e2 →
      (load_from_gcs (.error "boom") (.ok [("brain", brainCfg)]) 500
        initialCacheState).config = []) :=
  refresh_failure_empty_table_fallback "boom" (.ok [("brain", brainCfg)]) 500
    initialCacheState rfl

/-- Helper: whatever the outcomes of the remote and local sources,
`load_from_gcs` yields either the old table, the remote table, or the
fallback table. -/
theorem load_from_gcs_cases (remote localFile : Except String Config) (now : Int)
    (s : CacheState) :
    (load_from_gcs remote localFile now s).config = s.config ∨
    (∃ t, remote = .ok t ∧ (load_from_gcs remote localFile now s).config = t) ∨
    (∃ t, localFile = .ok t ∧ (load_from_gcs remote localFile now s).config = t) := by
  cases remote with
  | ok t => exact Or.inr (Or.inl ⟨t, rfl, rfl⟩)
  | error e =>
    by_cases hemp : s.config.isEmpty
    · cases localFile with
      | ok t =>
          exact Or.inr (Or.inr ⟨t, rfl, by simp [load_from_gcs, hemp, load_local_fallback]⟩)
      | error e2 =>
          exact Or.inl (by simp [load_from_gcs, hemp, load_local_fallback])
    · exact Or.inl (by simp [load_from_gcs, hemp])

/-- C3: `get_services` is a total function — every load failure is absorbed
inside the cache — and it returns exactly the table held after the
(possibly attempted) refresh, which is the previously held table or a
successfully fetched one, never an exception. -/
theorem get_services_absorbs_failures
    (remote localFile : Except String Config) (now : Int) (s : CacheState) :
    (get_services remote localFile now s).1
      = (get_services remote localFile now s).2.1.config ∧
    ((get_services remote localFile now s).1 = s.config ∨
     (∃ t, remote = .ok t ∧ (get_services remote localFile now s).1 = t) ∨
     (∃ t, localFile = .ok t ∧ (get_services remote localFile now s).1 = t)) := by
  by_cases hst : now - s.lastLoaded > cacheTTL
  · constructor
    · simp [get_services, hst]
    · have := load_from_gcs_cases remote localFile now s
      simpa [get_services, hst] using this
  · constructor
    · simp [get_services, hst]
    · exact Or.inl (by simp [get_services, hst])

/-- C4: the TTL is fixed at 300 seconds; a lookup whose elapsed time since
`last_loaded_at` does not exceed it performs no refresh attempt and
returns the held table (so every held entry is returned as-is), and a
lookup whose elapsed time exceeds it performs exactly one refresh attempt
before returning. -/
theorem ttl_boundary_refresh
    (remote localFile : Except String Config) (now : Int) (s : CacheState) :
    cacheTTL = 300 ∧
    (now - s.lastLoaded ≤ cacheTTL →
      get_services remote localFile now s = (s.config, s, 0)) ∧
    (now - s.lastLoaded ≤ cacheTTL → ∀ name entry,
      s.config.lookup name = some entry →
      (get_services remote localFile now s).1.lookup name = some entry) ∧
    (now - s.lastLoaded > cacheTTL →
      (get_services remote localFile now s).2.2 = 1) := by
  refine ⟨rfl, ?_, ?_, ?_⟩
  · intro hle
    have hns : ¬ (now - s.lastLoaded > cacheTTL) := not_lt.mpr hle
    simp [get_services, hns]
  · intro hle name entry hlook
    have hns : ¬ (now - s.lastLoaded > cacheTTL) := not_lt.mpr hle
    simpa [get_services, hns] using hlook
  · intro hgt
    simp [get_services, hgt]

theorem ttl_boundary_refresh_witness :
    get_services (.error "boom") (.error "no file") 299 warmState
      = (warmState.config, warmState, 0) ∧
    (get_services (.error "boom") (.error "no file") 299 warmState).1.lookup "brain"
      = some brainCfg ∧
    (get_services (.error "boom") (.error "no file") 301 warmState).2.2 = 1 :=
  ⟨(ttl_boundary_refresh (.error "boom") (.error "no file") 299 warmState).2.1
      (by decide),
   (ttl_boundary_refresh (.error "boom") (.error "no file") 299 warmState).2.2.1
      (by decide) "brain" brainCfg (by decide),
   (ttl_boundary_refresh (.error "boom") (.error "no file") 301 warmState).2.2.2
      (by decide)⟩

end Enqueuer

namespace Enqueuer

/-! ## Enqueue claims -/

/-- A request naming an unknown service. -/
def ghostReq : EnqueueRequest :=
  { service := "ghost", payload := "payload-bytes", idempotency_key := none,
    delay_s := none, deadline_s := none }

/-- A request carrying an in-range explicit deadline. -/
def reqWithDeadline : EnqueueRequest :=
  { service := "brain", payload := "payload-bytes", idempotency_key := none,
    delay_s := none, deadline_s := some 120 }

/-- A request carrying an explicit idempotency key. -/
def reqWithKey : EnqueueRequest :=
  { service := "brain", payload := "payload-bytes", idempotency_key := some "key-123",
    delay_s := none, deadline_s := none }

/-- A request carrying an empty-string idempotency key. -/
def emptyKeyReq : EnqueueRequest :=
  { service := "brain", payload := "payload-bytes", idempotency_key := some "",
    delay_s := none, deadline_s := none }

/-- A routing entry whose dict has no `deadline_s` key. -/
def noDeadlineCfg : ServiceCfg :=
  { queue := "q-bare", url := "https://bare.example/run",
    aud := "aud-bare", deadline_s := none }

/-- C5: a request whose service name is absent from the current routing
table (the table `get_services` yields for this lookup) is rejected by the
pydantic validator with an HTTP 422 response, and zero `create_task` calls
are made to the queue backend. -/
theorem unknown_service_rejected
    (callerSA : String) (remote localFile : Except String Config) (now : Int)
    (s : CacheState) (req : EnqueueRequest) (genKey : String)
    (backend : TaskModel → Except String String)
    (h : ((get_services remote localFile now s).1.lookup req.service) = none) :
    ∃ msg s1, handleEnqueue callerSA remote localFile now s req genKey backend
      = (.httpError 422 msg, s1, 0) := by
  refine ⟨"Servicio " ++ req.service ++ " no encontrado. Disponibles: "
      ++ toString ((get_services remote localFile now s).1.map Prod.fst),
    (get_services remote localFile now s).2.1, ?_⟩
  unfold handleEnqueue validateRequest service_must_exist
  simp [h]

theorem unknown_service_rejected_witness :
    ∃ msg s1, handleEnqueue "caller-sa" (.error "boom") (.error "no file") 100
      warmState ghostReq "gen-1" (fun _ => .ok "task-name")
      = (.httpError 422 msg, s1, 0) :=
  unknown_service_rejected "caller-sa" (.error "boom") (.error "no file") 100
    warmState ghostReq "gen-1" (fun _ => .ok "task-name") (by decide)

/-- C6: for a routing entry that carries a default deadline, the effective
dispatch deadline is the caller-supplied `deadline_s` when present and in
[1, 3600], and the entry's default when the caller supplies none; the task
descriptor's `dispatch_deadline` renders exactly this value. -/
theorem effective_deadline_spec
    (callerSA : String) (cfg : ServiceCfg) (req : EnqueueRequest)
    (genKey : String) (now : Int) (dflt : Int)
    (hcfg : cfg.deadline_s = some dflt) :
    (∀ d, req.deadline_s = some d → 1 ≤ d → d ≤ 3600 →
      effectiveDeadline cfg req = d) ∧
    (req.deadline_s = none → effectiveDeadline cfg req = dflt) ∧
    (buildTask callerSA cfg req genKey now).dispatch_deadline
      = toString (effectiveDeadline cfg req) ++ "s" := by
  refine ⟨?_, ?_, rfl⟩
  · intro d hd h1 h2
    have hz : d ≠ 0 := by omega
    simp [effectiveDeadline, hd, hz]
  · intro hd
    simp [effectiveDeadline, hd, hcfg]

theorem effective_deadline_spec_witness :
    effectiveDeadline brainCfg reqWithDeadline = 120 ∧
    effectiveDeadline brainCfg brainReq = 600 :=
  ⟨(effective_deadline_spec "caller-sa" brainCfg reqWithDeadline "gen-1" 0 600
      rfl).1 120 rfl (by decide) (by decide),
   (effective_deadline_spec "caller-sa" brainCfg brainReq "gen-1" 0 600
      rfl).2.1 rfl⟩

/-- C7 counterexample: a request that supplies the empty string as its
idempotency key does not get it preserved — Python `or` treats it as
falsy and a generated key lands in the `X-Idempotency-Key` header instead. -/
theorem supplied_empty_key_replaced :
    emptyKeyReq.idempotency_key = some "" ∧
    (buildTask "caller-sa" brainCfg emptyKeyReq "generated-key-1"
      0).http_request.headers.lookup "X-Idempotency-Key" ≠ some "" := by
  decide

/-- C7 amended: the `X-Idempotency-Key` header holds the effective key;
with no supplied key it is the generated one (distinct generated tokens
give distinct headers), and a supplied NON-EMPTY key is preserved
verbatim; an empty-string key is treated as absent. -/
theorem idem_key_header_spec
    (callerSA : String) (cfg : ServiceCfg) (req : EnqueueRequest)
    (genKey gk1 gk2 : String) (now : Int) :
    (buildTask callerSA cfg req genKey now).http_request.headers.lookup
      "X-Idempotency-Key" = some (effectiveIdemKey req genKey) ∧
    (req.idempotency_key = none → effectiveIdemKey req genKey = genKey) ∧
    (req.idempotency_key = none → gk1 ≠ gk2 →
      effectiveIdemKey req gk1 ≠ effectiveIdemKey req gk2) ∧
    (∀ k, req.idempotency_key = some k → k ≠ "" →
      effectiveIdemKey req genKey = k) := by
  refine ⟨?_, ?_, ?_, ?_⟩
  · simp [buildTask, List.lookup]
  · intro h
    simp [effectiveIdemKey, h]
  · intro h hne
    simpa [effectiveIdemKey, h] using hne
  · intro k hk hne
    simp [effectiveIdemKey, hk, hne]

theorem idem_key_header_spec_witness :
    effectiveIdemKey brainReq "gen-a" = "gen-a" ∧
    effectiveIdemKey reqWithKey "gen-a" = "key-123" :=
  ⟨(idem_key_header_spec "caller-sa" brainCfg brainReq "gen-a" "x" "y" 0).2.1 rfl,
   (idem_key_header_spec "caller-sa" brainCfg reqWithKey "gen-a" "x" "y" 0).2.2.2
     "key-123" rfl (by decide)⟩

end Enqueuer

namespace Enqueuer

/-- C8 counterexample: on a backend failure whose detail is
`quota exceeded`, the response detail is the fixed string
`Error en Cloud Tasks` — the backend-provided detail is not carried
through to the caller. -/
theorem backend_detail_not_surfaced :
    (enqueueBody "caller-sa" [("brain", brainCfg)] 0 brainReq "gen-1" 0
      (fun _ => .error "quota exceeded")).1
      = .httpError 500 "Error en Cloud Tasks" ∧
    ("Error en Cloud Tasks" : String) ≠ "quota exceeded" := by
  decide

/-- C8 amended: every backend task-creation failure yields an HTTP 500
whose detail is the fixed string "Error en Cloud Tasks" (the backend's
detail is only logged), after exactly one `create_task` call — no internal
retry. -/
theorem backend_failure_fixed_detail
    (callerSA : String) (table : Config) (lastLoaded : Int)
    (req : EnqueueRequest) (genKey : String) (now : Int)
    (backend : TaskModel → Except String String) (cfg : ServiceCfg) (e : String)
    (hc : table.lookup req.service = some cfg)
    (hb : backend (buildTask callerSA cfg req genKey now) = .error e) :
    enqueueBody callerSA table lastLoaded req genKey now backend
      = (.httpError 500 "Error en Cloud Tasks", 1) := by
  simp [enqueueBody, hc, hb]

theorem backend_failure_fixed_detail_witness :
    enqueueBody "caller-sa" [("brain", brainCfg)] 0 brainReq "gen-1" 0
      (fun _ => .error "quota exceeded")
      = (.httpError 500 "Error en Cloud Tasks", 1) :=
  backend_failure_fixed_detail "caller-sa" [("brain", brainCfg)] 0 brainReq
    "gen-1" 0 (fun _ => .error "quota exceeded") brainCfg "quota exceeded"
    (by decide) rfl

/-- C9 counterexample: a successful enqueue returns a body holding only
`ok`, `task`, `service` and `from_config_ver`; the `queue`, `deadline_s`
and `idempotency_key` fields the claim requires are absent. -/
theorem success_body_missing_fields :
    (enqueueBody "caller-sa" [("brain", brainCfg)] 0 brainReq "gen-1" 0
        (fun _ => .ok "tasks-t1")).1
      = .success [("ok", "true"), ("task", "tasks-t1"), ("service", "brain"),
                  ("from_config_ver", "0")] ∧
    ([("ok", "true"), ("task", "tasks-t1"), ("service", "brain"),
      ("from_config_ver", "0")] : List (String × String)).lookup "queue" = none ∧
    ([("ok", "true"), ("task", "tasks-t1"), ("service", "brain"),
      ("from_config_ver", "0")] : List (String × String)).lookup "deadline_s"
        = none ∧
    ([("ok", "true"), ("task", "tasks-t1"), ("service", "brain"),
      ("from_config_ver", "0")] : List (String × String)).lookup "idempotency_key"
        = none := by
  decide

/-- C9 amended: every successful enqueue returns HTTP 200 with body
`ok = "true"`, the backend-assigned task name, the service name, and a
`from_config_ver` debug string — and nothing else (no queue, deadline or
idempotency key fields), after exactly one `create_task` call. -/
theorem success_response_fields
    (callerSA : String) (table : Config) (lastLoaded : Int)
    (req : EnqueueRequest) (genKey : String) (now : Int)
    (backend : TaskModel → Except String String) (cfg : ServiceCfg) (name : String)
    (hc : table.lookup req.service = some cfg)
    (hb : backend (buildTask callerSA cfg req genKey now) = .ok name) :
    enqueueBody callerSA table lastLoaded req genKey now backend
      = (.success [("ok", "true"), ("task", name), ("service", req.service),
                   ("from_config_ver", toString lastLoaded)], 1) := by
  simp [enqueueBody, hc, hb]

theorem success_response_fields_witness :
    enqueueBody "caller-sa" [("brain", brainCfg)] 0 brainReq "gen-1" 0
      (fun _ => .ok "tasks-t1")
      = (.success [("ok", "true"), ("task", "tasks-t1"), ("service", "brain"),
                   ("from_config_ver", toString (0 : Int))], 1) :=
  success_response_fields "caller-sa" [("brain", brainCfg)] 0 brainReq
    "gen-1" 0 (fun _ => .ok "tasks-t1") brainCfg "tasks-t1" (by decide) rfl

/-- C10: when the resolved routing entry has no `deadline_s` key and the
caller supplies no deadline, the effective dispatch deadline is the
hardcoded fallback 900 seconds. -/
theorem deadline_defaults_to_900
    (cfg : ServiceCfg) (req : EnqueueRequest)
    (h1 : cfg.deadline_s = none) (h2 : req.deadline_s = none) :
    effectiveDeadline cfg req = 900 := by
  simp [effectiveDeadline, h1, h2]

theorem deadline_defaults_to_900_witness :
    effectiveDeadline noDeadlineCfg brainReq = 900 :=
  deadline_defaults_to_900 noDeadlineCfg brainReq rfl rfl

end Enqueuer
